import Mathlib

/-!
The script `static/js/scripts.js`.

A shallow embedding of the two event handlers of `static/js/scripts.js`:

* the listener registered for `htmx:afterSwap`, which scrolls the element with
  id `chat-window` to the bottom;
* `window.onload`, which reports on the console whether the global `htmx` exists.

The page is explicit state: the elements of the document in document order, the
binding of the global identifier `htmx`, and the messages written to the console.
An object reference is an index into the element list, `null` is `none`, and a
handler returns in `Except JsError`, an exception being the `error` branch.

The operations of the host that the script runs are embedded with the behaviour
the script meets in a browser: the named properties of `document`, which take
precedence over its methods, the `scrollTop` setter, which scrolls within the
scrollable range of the box, and `typeof` on an identifier, which reads the
binding unless the identifier does not resolve.
-/

namespace Scripts

/-! ## Values and exceptions -/

/-- The exceptions the statements of the script could raise. -/
inductive JsError where
  | typeError (msg : String)
  | referenceError (msg : String)
  deriving DecidableEq

/-- A JavaScript value, as far as `typeof` tells values apart. -/
inductive JsValue where
  | undefined
  | null
  | boolean (b : Bool)
  | number (n : Int)
  | string (s : String)
  | object
  | function
  deriving DecidableEq

/-- The state of a global identifier: never declared; declared by `let`,
`const` or `class` but not yet initialised; or bound to a value (which may be
the value `undefined`). -/
inductive Binding where
  | undeclared
  | uninitialized
  | declared (v : JsValue)
  deriving DecidableEq

/-- The operator `typeof` applied to a value. -/
def typeofValue : JsValue → String
  | .undefined => "undefined"
  | .null => "object"
  | .boolean _ => "boolean"
  | .number _ => "number"
  | .string _ => "string"
  | .object => "object"
  | .function => "function"

/-- Reading an identifier: a `ReferenceError` when it was never declared and
when its binding is not yet initialised. -/
def getValue : Binding → Except JsError JsValue
  | .undeclared => .error (.referenceError "htmx is not defined")
  | .uninitialized => .error (.referenceError "cannot access htmx before initialization")
  | .declared v => .ok v

/-- The expression `typeof x` for an identifier `x`: an identifier that does not
resolve yields the string `undefined` without being read; otherwise the
identifier is read, which raises on an uninitialised binding, and `typeof`
applies to its value. -/
def typeofIdentifier (b : Binding) : Except JsError String :=
  match b with
  | .undeclared => .ok "undefined"
  | _ => do
    let v ← getValue b
    pure (typeofValue v)

/-! ## The document -/

/-- The kinds of element that `document` exposes as named properties, and all
the others. -/
inductive Tag where
  | form
  | img
  | embed
  | object
  | iframe
  | other
  deriving DecidableEq

/-- An element of the page: its tag, its `name` and `id` attributes, the scroll
offset `scrollTop`, the content height `scrollHeight`, the height `clientHeight`
of the visible part, and whether the element has a scrolling box. -/
structure Element where
  tag : Tag := Tag.other
  name : String := ""
  id : String
  scrollTop : Int
  scrollHeight : Int
  clientHeight : Int
  scrollable : Bool
  deriving DecidableEq

/-- The element makes `document[n]` resolve to an element: a `form`, `embed` or
`iframe` by its name, an `img` by its name or, when it has a name, by its id, an
`object` by its name or id. -/
def Element.exposesName (e : Element) (n : String) : Bool :=
  match e.tag with
  | .form | .embed | .iframe => decide (e.name ≠ "" ∧ e.name = n)
  | .img => decide (e.name ≠ "" ∧ (e.name = n ∨ (e.id ≠ "" ∧ e.id = n)))
  | .object => decide ((e.name ≠ "" ∧ e.name = n) ∨ (e.id ≠ "" ∧ e.id = n))
  | .other => false

/-- The document has a named property `n`, which then stands in front of any
method of that name. -/
def namedProperty (doc : List Element) (n : String) : Bool :=
  doc.any (fun e => e.exposesName n)

/-- The first element in document order whose id is `key`. -/
def firstWithId : List Element → String → Option Nat
  | [], _ => none
  | e :: rest, key =>
    if e.id = key then some 0 else (firstWithId rest key).map (· + 1)

/-- The call `document.getElementById(key)`: a `TypeError` when a named property
stands in front of the method; otherwise `null` for the empty key and else a
reference to the first element with that id, or `null`. -/
def getElementById (doc : List Element) (key : String) : Except JsError (Option Nat) :=
  if namedProperty doc "getElementById" then
    .error (.typeError "document.getElementById is not a function")
  else if key = "" then .ok none
  else .ok (firstWithId doc key)

/-- Truthiness of the result of a lookup: `null` is falsy, an object is truthy. -/
def toBoolean : Option Nat → Bool
  | none => false
  | some _ => true

/-- The property read `ref.scrollHeight`: a `TypeError` on `null`. -/
def getScrollHeight (doc : List Element) : Option Nat → Except JsError Int
  | none => .error (.typeError "cannot read properties of null (reading scrollHeight)")
  | some i =>
    match doc[i]? with
    | some e => .ok e.scrollHeight
    | none => .error (.typeError "stale element reference")

/-- The `scrollTop` setter of an element: nothing happens when the element has
no scrolling box or its content does not overflow; otherwise the box scrolls to
`y` clamped to the scrollable range, from 0 to `scrollHeight - clientHeight`. -/
def Element.scrollTopSetter (e : Element) (y : Int) : Element :=
  if e.scrollable = false ∨ e.scrollHeight ≤ e.clientHeight then e
  else { e with scrollTop := max 0 (min y (e.scrollHeight - e.clientHeight)) }

/-- The assignment `ref.scrollTop = v`: a `TypeError` on `null`, otherwise the
setter of the referenced element runs and no other element changes. -/
def setScrollTop (doc : List Element) (v : Int) : Option Nat → Except JsError (List Element)
  | none => .error (.typeError "cannot set properties of null (setting scrollTop)")
  | some i =>
    match doc[i]? with
    | some e => .ok (doc.set i (e.scrollTopSetter v))
    | none => .error (.typeError "stale element reference")

/-! ## The console -/

/-- The two console channels the script writes to: `console.error` and
`console.log`. -/
inductive Severity where
  | error
  | info
  deriving DecidableEq

/-- One line written to the console. -/
structure Message where
  severity : Severity
  text : String
  deriving DecidableEq

/-- The state the handlers run in. -/
structure Page where
  document : List Element
  htmx : Binding
  console : List Message
  deriving DecidableEq

/-- The call `console.error(text)`. -/
def console.error (p : Page) (text : String) : Page :=
  { p with console := p.console ++ [⟨Severity.error, text⟩] }

/-- The call `console.log(text)`. -/
def console.log (p : Page) (text : String) : Page :=
  { p with console := p.console ++ [⟨Severity.info, text⟩] }

/-! ## The handlers -/

/-- The listener registered with
`document.addEventListener("htmx:afterSwap", function() ...)`. -/
def afterSwapHandler (p : Page) : Except JsError Page := do
  let chatWindow ← getElementById p.document "chat-window"
  if toBoolean chatWindow then
    let h ← getScrollHeight p.document chatWindow
    let doc ← setScrollTop p.document h chatWindow
    pure { p with document := doc }
  else
    pure p

/-- The function assigned to `window.onload`. -/
def window.onload (p : Page) : Except JsError Page := do
  let t ← typeofIdentifier p.htmx
  if t = "undefined" then
    pure (console.error p "htmx failed to load. Check CDN or network.")
  else
    pure (console.log p "htmx is loaded")

/-- The messages a handler run added to the console: what follows the messages
that were already there. -/
def emitted (before after : Page) : List Message :=
  after.console.drop before.console.length

/-- The text `word` occurs in `text`. -/
def mentions (text word : String) : Prop :=
  word.toList <:+: text.toList

instance (text word : String) : Decidable (mentions text word) := by
  unfold mentions; infer_instance

/-- The global `htmx` holds something: it is declared and its value is not
`undefined`. -/
def Binding.isDefined : Binding → Bool
  | .declared .undefined => false
  | .declared _ => true
  | _ => false

/-- The global `htmx` is undefined: it was never declared, or it holds the value
`undefined`. -/
def Binding.isUndefined : Binding → Bool
  | .undeclared => true
  | .declared .undefined => true
  | _ => false

/-! ## Sample pages -/

/-- A `div` with a scrolling box. -/
def scrollingDiv (id : String) (scrollTop scrollHeight clientHeight : Int) : Element :=
  { id := id, scrollTop := scrollTop, scrollHeight := scrollHeight,
    clientHeight := clientHeight, scrollable := true }

/-- Scenario A of the specification, `scrollHeight = 500` and `scrollTop = 0`,
on a container that shows 100 pixels of its content. -/
def scenarioA : Page :=
  ⟨[scrollingDiv "chat-window" 0 500 100], .undeclared, []⟩

/-- Scenario B of the specification: a page without the container, with some
other element and an earlier console line. -/
def scenarioB : Page :=
  ⟨[scrollingDiv "sidebar" 3 40 20], .declared .function, [⟨Severity.info, "htmx is loaded"⟩]⟩

/-- A page whose container is the second of three elements and is scrolled part
of the way down. -/
def scrolledPage : Page :=
  ⟨[scrollingDiv "header" 0 60 60, scrollingDiv "chat-window" 120 500 100,
    scrollingDiv "footer" 0 30 30], .declared .object, []⟩

/-- Scenario C of the specification: the library symbol was never declared. -/
def scenarioC : Page :=
  ⟨[scrollingDiv "chat-window" 0 500 100], .undeclared, []⟩

/-- Scenario D of the specification: the library symbol holds the library. -/
def scenarioD : Page :=
  ⟨[scrollingDiv "chat-window" 0 500 100], .declared .function, []⟩

/-- A page with the container and with a form named `getElementById`. -/
def shadowedPage : Page :=
  ⟨[{ tag := Tag.form, name := "getElementById", id := "search", scrollTop := 0,
      scrollHeight := 20, clientHeight := 20, scrollable := false },
    scrollingDiv "chat-window" 0 500 100], .declared .function, []⟩

/-- A page on which a script declared `htmx` with `let` and failed before
initialising it. -/
def uninitializedPage : Page :=
  ⟨[scrollingDiv "chat-window" 0 500 100], .uninitialized, []⟩

/-! ## Lemmas on lists of elements -/

theorem getElem?_lt {doc : List Element} {j : Nat} {e : Element} (hj : doc[j]? = some e) :
    j < doc.length := by
  by_contra hlt
  have : doc[j]? = none := List.getElem?_eq_none (Nat.le_of_not_lt hlt)
  simp [this] at hj

theorem getElem?_set_same {doc : List Element} {j : Nat} {e e' : Element}
    (hj : doc[j]? = some e) : (doc.set j e')[j]? = some e' := by
  have hlt := getElem?_lt hj
  simp [List.getElem?_set, hlt]

theorem getElem?_set_other {doc : List Element} {i j : Nat} {e' : Element} (hij : i ≠ j) :
    (doc.set i e')[j]? = doc[j]? := by
  simp [List.getElem?_set, hij]

theorem map_set_of_eq {β : Type} (f : Element → β) {doc : List Element} {j : Nat}
    {e e' : Element} (hj : doc[j]? = some e) (hf : f e' = f e) :
    (doc.set j e').map f = doc.map f := by
  induction doc generalizing j with
  | nil => simp
  | cons a rest ih =>
    cases j with
    | zero =>
      simp at hj
      subst hj
      simp [hf]
    | succ j =>
      simp at hj
      simp [ih hj]

theorem any_set_of_eq (f : Element → Bool) {doc : List Element} {j : Nat}
    {e e' : Element} (hj : doc[j]? = some e) (hf : f e' = f e) :
    (doc.set j e').any f = doc.any f := by
  induction doc generalizing j with
  | nil => simp
  | cons a rest ih =>
    cases j with
    | zero =>
      simp at hj
      subst hj
      simp [hf]
    | succ j =>
      simp at hj
      simp [ih hj]

/-! ## Lemmas on the `scrollTop` setter -/

theorem scrollTopSetter_eta (e : Element) (y : Int) :
    e.scrollTopSetter y = { e with scrollTop := (e.scrollTopSetter y).scrollTop } := by
  unfold Element.scrollTopSetter
  split <;> rfl

theorem scrollTopSetter_id (e : Element) (y : Int) : (e.scrollTopSetter y).id = e.id := by
  rw [scrollTopSetter_eta]

theorem scrollTopSetter_scrollHeight (e : Element) (y : Int) :
    (e.scrollTopSetter y).scrollHeight = e.scrollHeight := by
  rw [scrollTopSetter_eta]

theorem scrollTopSetter_clientHeight (e : Element) (y : Int) :
    (e.scrollTopSetter y).clientHeight = e.clientHeight := by
  rw [scrollTopSetter_eta]

theorem scrollTopSetter_exposesName (e : Element) (y : Int) (n : String) :
    (e.scrollTopSetter y).exposesName n = e.exposesName n := by
  rw [scrollTopSetter_eta]
  rfl

theorem scrollTopSetter_fixed {e : Element} (y : Int)
    (h : e.scrollable = false ∨ e.scrollHeight ≤ e.clientHeight) : e.scrollTopSetter y = e := by
  simp [Element.scrollTopSetter, h]

theorem scrollTopSetter_scrolls {e : Element} (y : Int)
    (hs : e.scrollable = true) (ho : e.clientHeight < e.scrollHeight) :
    (e.scrollTopSetter y).scrollTop = max 0 (min y (e.scrollHeight - e.clientHeight)) := by
  have hc : ¬ (e.scrollable = false ∨ e.scrollHeight ≤ e.clientHeight) := by
    rintro (h | h)
    · simp [hs] at h
    · omega
  simp [Element.scrollTopSetter, hc]

theorem scrollTopSetter_bottom {e : Element}
    (hs : e.scrollable = true) (hc : 0 ≤ e.clientHeight) (ho : e.clientHeight < e.scrollHeight) :
    (e.scrollTopSetter e.scrollHeight).scrollTop = e.scrollHeight - e.clientHeight := by
  rw [scrollTopSetter_scrolls _ hs ho]
  omega

theorem scrollTopSetter_twice (e : Element) (y : Int) :
    (e.scrollTopSetter y).scrollTopSetter y = e.scrollTopSetter y := by
  unfold Element.scrollTopSetter
  split
  · next h => simp [h]
  · next h => simp [h]

/-! ## Lemmas on the lookup and on the handlers -/

theorem firstWithId_some_elem {doc : List Element} {key : String} {i : Nat}
    (h : firstWithId doc key = some i) : ∃ e, doc[i]? = some e ∧ e.id = key := by
  induction doc generalizing i with
  | nil => simp [firstWithId] at h
  | cons a rest ih =>
    unfold firstWithId at h
    split at h
    · next hk =>
      cases h
      exact ⟨a, by simp, hk⟩
    · next hk =>
      cases hr : firstWithId rest key with
      | none => simp [hr] at h
      | some j =>
        simp [hr] at h
        subst h
        obtain ⟨e, he, hid⟩ := ih hr
        exact ⟨e, by simpa using he, hid⟩

theorem firstWithId_set {doc : List Element} {key : String} {j : Nat} {e : Element}
    (e' : Element) (hj : doc[j]? = some e) (hid : e'.id = e.id) :
    firstWithId (doc.set j e') key = firstWithId doc key := by
  induction doc generalizing j with
  | nil => simp
  | cons a rest ih =>
    cases j with
    | zero =>
      simp at hj
      subst hj
      simp [firstWithId, hid]
    | succ j =>
      simp at hj
      simp [firstWithId, ih hj]

theorem getElementById_shadowed {doc : List Element} (key : String)
    (h : namedProperty doc "getElementById" = true) :
    getElementById doc key = .error (.typeError "document.getElementById is not a function") := by
  simp [getElementById, h]

theorem getElementById_callable {doc : List Element} (key : String)
    (h : namedProperty doc "getElementById" = false) :
    ∃ r, getElementById doc key = .ok r := by
  by_cases hk : key = ""
  · exact ⟨none, by simp [getElementById, h, hk]⟩
  · exact ⟨firstWithId doc key, by simp [getElementById, h, hk]⟩

theorem getElementById_some_elem {doc : List Element} {key : String} {i : Nat}
    (h : getElementById doc key = .ok (some i)) : ∃ e, doc[i]? = some e ∧ e.id = key := by
  unfold getElementById at h
  split at h
  · cases h
  · split at h
    · cases h
    · injection h with h
      exact firstWithId_some_elem h

theorem getElementById_ok_callable {doc : List Element} {key : String} {r : Option Nat}
    (h : getElementById doc key = .ok r) : namedProperty doc "getElementById" = false := by
  cases hn : namedProperty doc "getElementById" with
  | false => rfl
  | true => rw [getElementById_shadowed key hn] at h; cases h

theorem getElementById_set {doc : List Element} {key : String} {j : Nat} {e : Element}
    (y : Int) (hj : doc[j]? = some e) :
    getElementById (doc.set j (e.scrollTopSetter y)) key = getElementById doc key := by
  unfold getElementById namedProperty
  rw [any_set_of_eq _ hj (scrollTopSetter_exposesName e y "getElementById"),
    firstWithId_set _ hj (scrollTopSetter_id e y)]

theorem afterSwapHandler_found {p : Page} {i : Nat} {e : Element}
    (hfind : getElementById p.document "chat-window" = .ok (some i))
    (he : p.document[i]? = some e) :
    afterSwapHandler p
      = .ok { p with document := p.document.set i (e.scrollTopSetter e.scrollHeight) } := by
  simp [afterSwapHandler, hfind, toBoolean, getScrollHeight, setScrollTop, he, bind, Except.bind,
    pure, Except.pure]

theorem afterSwapHandler_absent {p : Page}
    (hfind : getElementById p.document "chat-window" = .ok none) : afterSwapHandler p = .ok p := by
  simp [afterSwapHandler, hfind, toBoolean, bind, Except.bind, pure, Except.pure]

theorem afterSwapHandler_shadowed {p : Page}
    (h : namedProperty p.document "getElementById" = true) :
    afterSwapHandler p = .error (.typeError "document.getElementById is not a function") := by
  simp [afterSwapHandler, getElementById_shadowed "chat-window" h, bind, Except.bind]

theorem afterSwapHandler_twice {p : Page} {i : Nat} {e : Element}
    (hfind : getElementById p.document "chat-window" = .ok (some i))
    (he : p.document[i]? = some e) :
    afterSwapHandler { p with document := p.document.set i (e.scrollTopSetter e.scrollHeight) }
      = .ok { p with document := p.document.set i (e.scrollTopSetter e.scrollHeight) } := by
  have hfind' : getElementById (p.document.set i (e.scrollTopSetter e.scrollHeight))
      "chat-window" = .ok (some i) := (getElementById_set e.scrollHeight he).trans hfind
  have he' : (p.document.set i (e.scrollTopSetter e.scrollHeight))[i]?
      = some (e.scrollTopSetter e.scrollHeight) := getElem?_set_same he
  rw [afterSwapHandler_found hfind' he']
  simp [scrollTopSetter_scrollHeight, scrollTopSetter_twice]

theorem onload_undefined {p : Page} (h : p.htmx.isUndefined = true) :
    window.onload p = .ok (console.error p "htmx failed to load. Check CDN or network.") := by
  cases hb : p.htmx with
  | undeclared => simp [window.onload, hb, typeofIdentifier, bind, Except.bind, pure, Except.pure]
  | uninitialized => simp [hb, Binding.isUndefined] at h
  | declared v =>
    cases v <;>
      simp_all [window.onload, typeofIdentifier, getValue, typeofValue, Binding.isUndefined, bind,
        Except.bind, pure, Except.pure]

theorem onload_defined {p : Page} (h : p.htmx.isDefined = true) :
    window.onload p = .ok (console.log p "htmx is loaded") := by
  cases hb : p.htmx with
  | undeclared => simp [hb, Binding.isDefined] at h
  | uninitialized => simp [hb, Binding.isDefined] at h
  | declared v =>
    cases v <;>
      simp_all [window.onload, typeofIdentifier, getValue, typeofValue, Binding.isDefined, bind,
        Except.bind, pure, Except.pure]

theorem onload_uninitialized {p : Page} (h : p.htmx = .uninitialized) :
    window.onload p
      = .error (.referenceError "cannot access htmx before initialization") := by
  simp [window.onload, h, typeofIdentifier, getValue, bind, Except.bind]

theorem initialized_cases {b : Binding} (h : b ≠ .uninitialized) :
    b.isUndefined = true ∨ b.isDefined = true := by
  cases b with
  | undeclared => exact Or.inl rfl
  | uninitialized => exact absurd rfl h
  | declared v => cases v <;> simp [Binding.isUndefined, Binding.isDefined]

theorem emitted_self_console {p p' : Page} (h : p'.console = p.console) : emitted p p' = [] := by
  simp [emitted, h]

theorem emitted_append {p p' : Page} {ms : List Message} (h : p'.console = p.console ++ ms) :
    emitted p p' = ms := by
  simp [emitted, h]

/-! ## The listener for `htmx:afterSwap` -/

/-- C1, as stated, fails on Scenario A when the container shows 100 pixels of
its 500 pixels of content: the lookup finds it with `scrollHeight = 500` and
`scrollTop = 0`, and after the handler its scrollTop is 400, not 500. -/
theorem afterSwap_scenarioA_stops_short :
    getElementById scenarioA.document "chat-window" = .ok (some 0) ∧
    scenarioA.document[0]? = some (scrollingDiv "chat-window" 0 500 100) ∧
    (scrollingDiv "chat-window" 0 500 100).scrollHeight = 500 ∧
    afterSwapHandler scenarioA
      = .ok ⟨[scrollingDiv "chat-window" 400 500 100], .undeclared, []⟩ ∧
    ¬ ∃ p' e', afterSwapHandler scenarioA = .ok p' ∧ p'.document[0]? = some e' ∧
      e'.scrollTop = 500 := by
  refine ⟨rfl, rfl, rfl, rfl, ?_⟩
  rintro ⟨p', e', hp, he, htop⟩
  have hrun : afterSwapHandler scenarioA
      = .ok ⟨[scrollingDiv "chat-window" 400 500 100], .undeclared, []⟩ := rfl
  rw [hrun] at hp
  injection hp with hp
  subst hp
  simp at he
  subst he
  simp [scrollingDiv] at htop

/-- C1, amended: when the lookup of id `chat-window` returns a container with
scrollHeight `H ≥ 0` and clientHeight `C ≥ 0`, the afterSwap handler returns a
page in which the same lookup returns the same container. If the container has a
scrolling box and its content overflows (`C < H`), its scrollTop is now `H - C`,
the bottom of the scrollable range, which is `H` itself when `C = 0`. If it has
no scrolling box or its content does not overflow, its scrollTop is unchanged. -/
theorem afterSwap_scrolls_to_bottom (p : Page) (i : Nat) (e : Element) (H C : Int)
    (hH : 0 ≤ H) (hC : 0 ≤ C)
    (hfind : getElementById p.document "chat-window" = .ok (some i))
    (he : p.document[i]? = some e) (hh : e.scrollHeight = H) (hc : e.clientHeight = C) :
    ∃ p' e', afterSwapHandler p = .ok p' ∧
      getElementById p'.document "chat-window" = .ok (some i) ∧
      p'.document[i]? = some e' ∧
      (e.scrollable = true → C < H → e'.scrollTop = H - C) ∧
      (e.scrollable = true → C = 0 → 0 < H → e'.scrollTop = H) ∧
      (e.scrollable = false ∨ H ≤ C → e'.scrollTop = e.scrollTop) := by
  have _ := hH
  refine ⟨_, e.scrollTopSetter e.scrollHeight, afterSwapHandler_found hfind he, ?_, ?_, ?_, ?_,
    ?_⟩
  · exact (getElementById_set e.scrollHeight he).trans hfind
  · exact getElem?_set_same he
  · intro hs ho
    rw [scrollTopSetter_bottom hs (by omega) (by omega)]
    omega
  · intro hs h0 hpos
    rw [scrollTopSetter_bottom hs (by omega) (by omega)]
    omega
  · intro h
    rw [scrollTopSetter_fixed]
    rcases h with h | h
    · exact Or.inl h
    · exact Or.inr (by omega)

/-- Scenario A on a container that shows 100 pixels: scrollHeight 500 and
scrollTop 0 give scrollTop 400. -/
theorem afterSwap_scrolls_to_bottom_witness :
    ∃ p' e', afterSwapHandler scenarioA = .ok p' ∧
      getElementById p'.document "chat-window" = .ok (some 0) ∧
      p'.document[0]? = some e' ∧ e'.scrollTop = 500 - 100 := by
  obtain ⟨p', e', h1, h2, h3, h4, _, _⟩ :=
    afterSwap_scrolls_to_bottom scenarioA 0 (scrollingDiv "chat-window" 0 500 100) 500 100
      (by decide) (by decide) rfl rfl rfl rfl
  exact ⟨p', e', h1, h2, h3, h4 rfl (by decide)⟩

/-- C2: when the lookup of id `chat-window` returns `null`, the afterSwap
handler returns normally, the page it returns is the page it started from, and
it writes no message to the console. -/
theorem afterSwap_absent_noop (p : Page)
    (hfind : getElementById p.document "chat-window" = .ok none) :
    ∃ p', afterSwapHandler p = .ok p' ∧ p' = p ∧ emitted p p' = [] :=
  ⟨p, afterSwapHandler_absent hfind, rfl, emitted_self_console rfl⟩

/-- Scenario B: no element matches the lookup key. -/
theorem afterSwap_absent_noop_witness :
    getElementById scenarioB.document "chat-window" = .ok none ∧
    ∃ p', afterSwapHandler scenarioB = .ok p' ∧ p' = scenarioB ∧ emitted scenarioB p' = [] :=
  ⟨rfl, afterSwap_absent_noop scenarioB rfl⟩

/-- C3: the afterSwap handler is idempotent. On every page two runs in a row
give the result of one run. Where the call of `document.getElementById` goes
through, container present or not, the handler returns a page on which a second
run returns that same page, so the container found after the second run has the
scrollTop it had after the first. -/
theorem afterSwap_idempotent (p : Page) :
    (afterSwapHandler p >>= afterSwapHandler) = afterSwapHandler p ∧
    (namedProperty p.document "getElementById" = false →
      ∃ p', afterSwapHandler p = .ok p' ∧ afterSwapHandler p' = .ok p') := by
  cases hn : namedProperty p.document "getElementById" with
  | true =>
    refine ⟨?_, fun h => by cases h⟩
    simp [afterSwapHandler_shadowed hn, bind, Except.bind]
  | false =>
    obtain ⟨r, hr⟩ := getElementById_callable "chat-window" hn
    cases r with
    | none =>
      have h := afterSwapHandler_absent hr
      exact ⟨by simp [h, bind, Except.bind], fun _ => ⟨p, h, h⟩⟩
    | some i =>
      obtain ⟨e, he, _⟩ := getElementById_some_elem hr
      have h1 := afterSwapHandler_found hr he
      have h2 := afterSwapHandler_twice hr he
      exact ⟨by simp [h1, bind, Except.bind, h2], fun _ => ⟨_, h1, h2⟩⟩

/-- The page after one run on `scrolledPage` is a fixed point of the handler. -/
theorem afterSwap_idempotent_witness :
    ∃ p', afterSwapHandler scrolledPage = .ok p' ∧ afterSwapHandler p' = .ok p' :=
  (afterSwap_idempotent scrolledPage).2 rfl

/-- C6: the afterSwap handler changes nothing except the scrollTop of the
element the lookup of `chat-window` returns. Where the call of
`document.getElementById` goes through, the handler returns a page with the same
binding of `htmx` and the same console, no message written; the document has the
same number of elements with the same ids and the same scrollHeights in the same
order; every element differs from the one that was at its place at most in
scrollTop; every element whose id is not `chat-window`, and every element other
than the one returned by the lookup, is unchanged. Where the call does not go
through, the handler raises and returns no page. -/
theorem afterSwap_frame (p : Page) :
    (namedProperty p.document "getElementById" = false →
      ∃ p', afterSwapHandler p = .ok p' ∧
        p'.htmx = p.htmx ∧ p'.console = p.console ∧ emitted p p' = [] ∧
        p'.document.length = p.document.length ∧
        p'.document.map (·.id) = p.document.map (·.id) ∧
        p'.document.map (·.scrollHeight) = p.document.map (·.scrollHeight) ∧
        (∀ (j : Nat) (e e' : Element), p.document[j]? = some e → p'.document[j]? = some e' →
          e' = { e with scrollTop := e'.scrollTop }) ∧
        (∀ (j : Nat) (e : Element), p.document[j]? = some e → e.id ≠ "chat-window" →
          p'.document[j]? = some e) ∧
        (∀ j : Nat, getElementById p.document "chat-window" ≠ .ok (some j) →
          p'.document[j]? = p.document[j]?)) ∧
    (namedProperty p.document "getElementById" = true →
      ∃ err, afterSwapHandler p = .error err) := by
  refine ⟨fun hn => ?_, fun hn => ⟨_, afterSwapHandler_shadowed hn⟩⟩
  obtain ⟨r, hr⟩ := getElementById_callable "chat-window" hn
  cases r with
  | none =>
    refine ⟨p, afterSwapHandler_absent hr, rfl, rfl, emitted_self_console rfl, rfl, rfl, rfl,
      ?_, fun _ _ h _ => h, fun _ _ => rfl⟩
    intro j e e' hj hj'
    rw [hj] at hj'
    cases hj'
    rfl
  | some i =>
    obtain ⟨e, he, hid⟩ := getElementById_some_elem hr
    refine ⟨_, afterSwapHandler_found hr he, rfl, rfl, emitted_self_console rfl, ?_, ?_, ?_,
      ?_, ?_, ?_⟩
    · simp
    · exact map_set_of_eq (·.id) he (scrollTopSetter_id e _)
    · exact map_set_of_eq (·.scrollHeight) he (scrollTopSetter_scrollHeight e _)
    · intro j e0 e1 hj hj'
      by_cases hij : i = j
      · subst hij
        rw [he] at hj
        cases hj
        have h1 : (p.document.set i (e.scrollTopSetter e.scrollHeight))[i]? = some e1 := hj'
        rw [getElem?_set_same he] at h1
        cases h1
        exact scrollTopSetter_eta e _
      · have h1 : (p.document.set i (e.scrollTopSetter e.scrollHeight))[j]? = some e1 := hj'
        rw [getElem?_set_other hij, hj] at h1
        cases h1
        rfl
    · intro j e0 hj hne
      have hij : i ≠ j := by
        rintro rfl
        rw [he] at hj
        cases hj
        exact hne hid
      show (p.document.set i _)[j]? = some e0
      rw [getElem?_set_other hij, hj]
    · intro j hj
      have hij : i ≠ j := fun h => hj (by rw [hr, h])
      exact getElem?_set_other hij

/-- On `scrolledPage` the header and the footer are what they were and the
container kept its scrollHeight. -/
theorem afterSwap_frame_witness :
    ∃ p', afterSwapHandler scrolledPage = .ok p' ∧
      p'.htmx = scrolledPage.htmx ∧ p'.console = scrolledPage.console ∧
      p'.document.map (·.scrollHeight) = [60, 500, 30] ∧
      p'.document[0]? = some (scrollingDiv "header" 0 60 60) ∧
      p'.document[2]? = some (scrollingDiv "footer" 0 30 30) := by
  obtain ⟨p', h1, h2, h3, _, _, _, h7, _, h9, _⟩ := (afterSwap_frame scrolledPage).1 rfl
  exact ⟨p', h1, h2, h3, h7, h9 0 _ rfl (by decide), h9 2 _ rfl (by decide)⟩

/-- C9, as stated, fails on `scrolledPage`: the container has scrollTop 120 and
scrollHeight 500, both at least 0, and after the handler the offset 500 lies in
the range from 0 to scrollHeight but above the new scrollTop, which is 400. -/
theorem afterSwap_below_scrollHeight :
    getElementById scrolledPage.document "chat-window" = .ok (some 1) ∧
    scrolledPage.document[1]? = some (scrollingDiv "chat-window" 120 500 100) ∧
    (0 : Int) ≤ (scrollingDiv "chat-window" 120 500 100).scrollTop ∧
    (0 : Int) ≤ (scrollingDiv "chat-window" 120 500 100).scrollHeight ∧
    ∃ p' e', afterSwapHandler scrolledPage = .ok p' ∧ p'.document[1]? = some e' ∧
      e'.scrollTop = 400 ∧
      ∃ t : Int, 0 ≤ t ∧ t ≤ e'.scrollHeight ∧ ¬ t ≤ e'.scrollTop :=
  ⟨rfl, rfl, by decide, by decide,
    ⟨[scrollingDiv "header" 0 60 60, scrollingDiv "chat-window" 400 500 100,
        scrollingDiv "footer" 0 30 30], .declared .object, []⟩,
    scrollingDiv "chat-window" 400 500 100, rfl, rfl, rfl, 500, by decide, by decide, by decide⟩

/-- C9, amended: when the container returned by the lookup of `chat-window` has
`scrollTop ≥ 0`, `scrollHeight ≥ 0` and `clientHeight ≥ 0`, the afterSwap handler
returns a page in which that container has unchanged scrollHeight and
clientHeight, `scrollTop ≥ 0` and `scrollHeight ≥ 0`. `scrollTop ≤ scrollHeight`
holds after the handler if it held before or if the container has a scrolling
box with overflowing content. If the container has a scrolling box, its new
scrollTop is at least every offset of the scrollable range, from 0 to
`scrollHeight - clientHeight`; and a prior scrollTop within that range is never
decreased. -/
theorem afterSwap_preserves_invariant (p : Page) (i : Nat) (e : Element)
    (hfind : getElementById p.document "chat-window" = .ok (some i))
    (he : p.document[i]? = some e)
    (htop : 0 ≤ e.scrollTop) (hheight : 0 ≤ e.scrollHeight) (hclient : 0 ≤ e.clientHeight) :
    ∃ p' e', afterSwapHandler p = .ok p' ∧
      getElementById p'.document "chat-window" = .ok (some i) ∧
      p'.document[i]? = some e' ∧
      e'.scrollHeight = e.scrollHeight ∧ e'.clientHeight = e.clientHeight ∧
      0 ≤ e'.scrollTop ∧ 0 ≤ e'.scrollHeight ∧
      (e.scrollTop ≤ e.scrollHeight ∨ (e.scrollable = true ∧ e.clientHeight < e.scrollHeight) →
        e'.scrollTop ≤ e'.scrollHeight) ∧
      (e.scrollable = true →
        ∀ t : Int, 0 ≤ t → t ≤ e'.scrollHeight - e'.clientHeight → t ≤ e'.scrollTop) ∧
      (e.scrollTop ≤ e.scrollHeight - e.clientHeight → e.scrollTop ≤ e'.scrollTop) := by
  have hcases : (e.scrollable = true ∧ e.clientHeight < e.scrollHeight ∧
        (e.scrollTopSetter e.scrollHeight).scrollTop = e.scrollHeight - e.clientHeight) ∨
      ((e.scrollable = false ∨ e.scrollHeight ≤ e.clientHeight) ∧
        (e.scrollTopSetter e.scrollHeight).scrollTop = e.scrollTop) := by
    by_cases hs : e.scrollable = true
    · by_cases ho : e.clientHeight < e.scrollHeight
      · exact Or.inl ⟨hs, ho, scrollTopSetter_bottom hs hclient ho⟩
      · exact Or.inr ⟨Or.inr (by omega), by rw [scrollTopSetter_fixed _ (Or.inr (by omega))]⟩
    · have hf : e.scrollable = false := by simpa using hs
      exact Or.inr ⟨Or.inl hf, by rw [scrollTopSetter_fixed _ (Or.inl hf)]⟩
  refine ⟨_, e.scrollTopSetter e.scrollHeight, afterSwapHandler_found hfind he, ?_, ?_,
    scrollTopSetter_scrollHeight e _, scrollTopSetter_clientHeight e _, ?_, ?_, ?_, ?_, ?_⟩
  · exact (getElementById_set e.scrollHeight he).trans hfind
  · exact getElem?_set_same he
  · rcases hcases with ⟨_, ho, ht⟩ | ⟨_, ht⟩ <;> rw [ht] <;> omega
  · rw [scrollTopSetter_scrollHeight]
    exact hheight
  · intro h
    rw [scrollTopSetter_scrollHeight]
    rcases hcases with ⟨_, ho, ht⟩ | ⟨hno, ht⟩
    · rw [ht]
      omega
    · rw [ht]
      rcases h with h | ⟨hs, ho⟩
      · exact h
      · rcases hno with hno | hno
        · rw [hs] at hno
          cases hno
        · omega
  · intro hs t ht0 ht
    rw [scrollTopSetter_scrollHeight, scrollTopSetter_clientHeight] at ht
    rcases hcases with ⟨_, ho, ht'⟩ | ⟨hno, ht'⟩
    · rw [ht']
      exact ht
    · rw [ht']
      rcases hno with hno | hno
      · rw [hs] at hno
        cases hno
      · omega
  · intro h
    rcases hcases with ⟨_, ho, ht⟩ | ⟨_, ht⟩
    · rw [ht]
      omega
    · rw [ht]

/-- The invariant is kept on `scrolledPage`, whose container is at index 1, and
its scrollTop goes from 120 to the bottom of the scrollable range. -/
theorem afterSwap_preserves_invariant_witness :
    ∃ p' e', afterSwapHandler scrolledPage = .ok p' ∧
      getElementById p'.document "chat-window" = .ok (some 1) ∧
      p'.document[1]? = some e' ∧
      e'.scrollHeight = 500 ∧ e'.clientHeight = 100 ∧
      0 ≤ e'.scrollTop ∧ 0 ≤ e'.scrollHeight ∧ e'.scrollTop ≤ e'.scrollHeight ∧
      (∀ t : Int, 0 ≤ t → t ≤ e'.scrollHeight - e'.clientHeight → t ≤ e'.scrollTop) ∧
      120 ≤ e'.scrollTop := by
  obtain ⟨p', e', h1, h2, h3, h4, h5, h6, h7, h8, h9, h10⟩ :=
    afterSwap_preserves_invariant scrolledPage 1 (scrollingDiv "chat-window" 120 500 100) rfl rfl
      (by decide) (by decide) (by decide)
  exact ⟨p', e', h1, h2, h3, h4, h5, h6, h7, h8 (Or.inl (by decide)), h9 rfl, h10 (by decide)⟩

/-! ## The handler `window.onload` -/

/-- C4: when `htmx` is undefined as the load handler runs (never declared, or
holding `undefined`), the handler writes exactly one message; it goes to
`console.error`, its text names `htmx` and the causes `CDN` and `network`, and
nothing goes to `console.log`. -/
theorem onload_reports_missing (p : Page) (h : p.htmx.isUndefined = true) :
    ∃ p' m, window.onload p = .ok p' ∧
      p'.console = p.console ++ [m] ∧ emitted p p' = [m] ∧
      m.severity = Severity.error ∧
      m.text = "htmx failed to load. Check CDN or network." ∧
      mentions m.text "htmx" ∧ mentions m.text "CDN" ∧ mentions m.text "network" ∧
      ∀ m' ∈ emitted p p', m'.severity ≠ Severity.info := by
  refine ⟨_, ⟨Severity.error, "htmx failed to load. Check CDN or network."⟩,
    onload_undefined h, rfl, emitted_append rfl, rfl, rfl, by decide, by decide, by decide, ?_⟩
  intro m' hm'
  have hem : emitted p (console.error p "htmx failed to load. Check CDN or network.")
      = [⟨Severity.error, "htmx failed to load. Check CDN or network."⟩] := emitted_append rfl
  rw [hem] at hm'
  simp at hm'
  subst hm'
  simp

/-- Scenario C: one error message and no other. -/
theorem onload_reports_missing_witness :
    scenarioC.htmx.isUndefined = true ∧
    ∃ p' m, window.onload scenarioC = .ok p' ∧
      p'.console = scenarioC.console ++ [m] ∧ emitted scenarioC p' = [m] ∧
      m.severity = Severity.error ∧
      m.text = "htmx failed to load. Check CDN or network." ∧
      mentions m.text "htmx" ∧ mentions m.text "CDN" ∧ mentions m.text "network" ∧
      ∀ m' ∈ emitted scenarioC p', m'.severity ≠ Severity.info :=
  ⟨rfl, onload_reports_missing scenarioC rfl⟩

/-- C5: when `htmx` is defined as the load handler runs, the handler writes
exactly one message; it goes to `console.log` and nothing goes to
`console.error`. -/
theorem onload_reports_loaded (p : Page) (h : p.htmx.isDefined = true) :
    ∃ p' m, window.onload p = .ok p' ∧
      p'.console = p.console ++ [m] ∧ emitted p p' = [m] ∧
      m.severity = Severity.info ∧ m.text = "htmx is loaded" ∧
      ∀ m' ∈ emitted p p', m'.severity ≠ Severity.error := by
  refine ⟨_, ⟨Severity.info, "htmx is loaded"⟩, onload_defined h, rfl, emitted_append rfl, rfl,
    rfl, ?_⟩
  intro m' hm'
  have hem : emitted p (console.log p "htmx is loaded")
      = [⟨Severity.info, "htmx is loaded"⟩] := emitted_append rfl
  rw [hem] at hm'
  simp at hm'
  subst hm'
  simp

/-- Scenario D: one info message and no other. -/
theorem onload_reports_loaded_witness :
    scenarioD.htmx.isDefined = true ∧
    ∃ p' m, window.onload scenarioD = .ok p' ∧
      p'.console = scenarioD.console ++ [m] ∧ emitted scenarioD p' = [m] ∧
      m.severity = Severity.info ∧ m.text = "htmx is loaded" ∧
      ∀ m' ∈ emitted scenarioD p', m'.severity ≠ Severity.error :=
  ⟨rfl, onload_reports_loaded scenarioD rfl⟩

/-- C8: the load handler only observes. Whatever the page and whether `htmx` is
defined, holds `undefined` or was never declared, the page the handler returns
has the same document, element for element, and the same binding of `htmx`
(nothing is loaded again); the console is the old console followed by one
message. On an uninitialised binding the handler raises and returns no page. -/
theorem onload_observational (p : Page) :
    (p.htmx ≠ .uninitialized →
      ∃ p' m, window.onload p = .ok p' ∧
        p'.document = p.document ∧ p'.htmx = p.htmx ∧
        p'.console = p.console ++ [m] ∧ emitted p p' = [m]) ∧
    (p.htmx = .uninitialized → ∃ err, window.onload p = .error err) := by
  refine ⟨fun hb => ?_, fun hb => ⟨_, onload_uninitialized hb⟩⟩
  rcases initialized_cases hb with hd | hd
  · exact ⟨_, _, onload_undefined hd, rfl, rfl, rfl, emitted_append rfl⟩
  · exact ⟨_, _, onload_defined hd, rfl, rfl, rfl, emitted_append rfl⟩

/-- On Scenario D the load handler leaves the document and the binding alone. -/
theorem onload_observational_witness :
    ∃ p' m, window.onload scenarioD = .ok p' ∧
      p'.document = scenarioD.document ∧ p'.htmx = scenarioD.htmx ∧
      p'.console = scenarioD.console ++ [m] ∧ emitted scenarioD p' = [m] :=
  (onload_observational scenarioD).1 (by decide)

/-! ## When the handlers raise -/

/-- C7, as stated, fails: the afterSwap handler raises a `TypeError` on a page
with a form named `getElementById`, and the load handler raises a
`ReferenceError` on a page whose `htmx` binding is not initialised. -/
theorem handlers_can_raise :
    afterSwapHandler shadowedPage
      = .error (.typeError "document.getElementById is not a function") ∧
    window.onload uninitializedPage
      = .error (.referenceError "cannot access htmx before initialization") ∧
    ¬ (∀ p : Page, (∃ p', afterSwapHandler p = .ok p') ∧ (∃ p', window.onload p = .ok p')) := by
  refine ⟨rfl, rfl, fun h => ?_⟩
  obtain ⟨p', hp'⟩ := (h shadowedPage).1
  have hrun : afterSwapHandler shadowedPage
      = .error (.typeError "document.getElementById is not a function") := rfl
  rw [hrun] at hp'
  cases hp'

/-- C7, amended: the afterSwap handler returns normally exactly on the pages on
which no named property of `document` stands in front of `getElementById`,
container present or absent, and otherwise raises the `TypeError` of the failed
call; the load handler returns normally exactly when `htmx` is defined, holds
`undefined` or was never declared, and raises a `ReferenceError` only on a
binding that is declared but not initialised. -/
theorem handlers_return_iff (p : Page) :
    ((∃ p', afterSwapHandler p = .ok p') ↔ namedProperty p.document "getElementById" = false) ∧
    ((∃ p', window.onload p = .ok p') ↔ p.htmx ≠ .uninitialized) ∧
    (∀ err, afterSwapHandler p = .error err →
      err = .typeError "document.getElementById is not a function") ∧
    (∀ err, window.onload p = .error err →
      err = .referenceError "cannot access htmx before initialization") := by
  have hswap : namedProperty p.document "getElementById" = false →
      ∃ p', afterSwapHandler p = .ok p' := by
    intro hn
    obtain ⟨r, hr⟩ := getElementById_callable "chat-window" hn
    cases r with
    | none => exact ⟨_, afterSwapHandler_absent hr⟩
    | some i =>
      obtain ⟨e, he, _⟩ := getElementById_some_elem hr
      exact ⟨_, afterSwapHandler_found hr he⟩
  have hload : p.htmx ≠ .uninitialized → ∃ p', window.onload p = .ok p' := by
    intro hb
    rcases initialized_cases hb with hd | hd
    · exact ⟨_, onload_undefined hd⟩
    · exact ⟨_, onload_defined hd⟩
  refine ⟨⟨?_, hswap⟩, ⟨?_, hload⟩, ?_, ?_⟩
  · rintro ⟨p', hp'⟩
    cases hn : namedProperty p.document "getElementById" with
    | false => rfl
    | true =>
      rw [afterSwapHandler_shadowed hn] at hp'
      cases hp'
  · rintro ⟨p', hp'⟩ hb
    rw [onload_uninitialized hb] at hp'
    cases hp'
  · intro err herr
    cases hn : namedProperty p.document "getElementById" with
    | false =>
      obtain ⟨p', hp'⟩ := hswap hn
      rw [hp'] at herr
      cases herr
    | true =>
      rw [afterSwapHandler_shadowed hn] at herr
      injection herr with herr
      exact herr.symm
  · intro err herr
    by_cases hb : p.htmx = .uninitialized
    · rw [onload_uninitialized hb] at herr
      injection herr with herr
      exact herr.symm
    · obtain ⟨p', hp'⟩ := hload hb
      rw [hp'] at herr
      cases herr

/-- Both handlers return on Scenario C, where the container is present and
`htmx` was never declared. -/
theorem handlers_return_iff_witness :
    (∃ p', afterSwapHandler scenarioC = .ok p') ∧ (∃ p', window.onload scenarioC = .ok p') :=
  ⟨(handlers_return_iff scenarioC).1.2 rfl, (handlers_return_iff scenarioC).2.1.2 (by decide)⟩

end Scripts
